import Mathlib

/-!
Shallow embedding of the trade lifecycle and risk-management engine of the
`tradingbot` repository, with theorems settling the claims of the spec about it.

Python floats are modelled as exact rationals (`ℚ`); timestamps as integers.
Each definition mirrors one Python function, named after it.
-/

set_option maxRecDepth 4000

/-- Trade direction, the `type` field of trade dicts (LONG / SHORT). -/
inductive TradeType where
  | LONG : TradeType
  | SHORT : TradeType
deriving DecidableEq, Repr

/-- The fields of the trade dict read by
`scripts/helpers/backtest_utils.calculate_fee_adjusted_profit`. -/
structure FeeTrade where
  entry_price : ℚ
  exit_price : ℚ
  position_size : ℚ
  ttype : TradeType
deriving DecidableEq, Repr

/-- Gross profit as computed in `calculate_fee_adjusted_profit`:
`(exit-entry)*size` for LONG, `(entry-exit)*size` for SHORT. -/
def gross_profit (t : FeeTrade) : ℚ :=
  match t.ttype with
  | .LONG => (t.exit_price - t.entry_price) * t.position_size
  | .SHORT => (t.entry_price - t.exit_price) * t.position_size

/-- Embeds `scripts/helpers/backtest_utils.calculate_fee_adjusted_profit`:
returns `(net_profit, total_fees)` with entry and exit fees each equal to
notional value times `fee_rate` (default 0.001). -/
def calculate_fee_adjusted_profit (trade : FeeTrade) (fee_rate : ℚ := 1/1000) :
    ℚ × ℚ :=
  let entry_fee := trade.entry_price * trade.position_size * fee_rate
  let exit_fee := trade.exit_price * trade.position_size * fee_rate
  let total_fees := entry_fee + exit_fee
  (gross_profit trade - total_fees, total_fees)

/-- C1: for every closed trade, total fees equal
`(entry_price*size + exit_price*size)*fee_rate`, net profit is gross minus
fees with gross given per side, and the round-trip example
(entry 100, size 1, exit 110, fee rate 0.001) gives gross 10, fees 0.21,
net 9.79. -/
theorem fee_adjusted_profit_correct :
    (∀ (t : FeeTrade) (fr : ℚ),
      (calculate_fee_adjusted_profit t fr).2 =
        (t.entry_price * t.position_size + t.exit_price * t.position_size) * fr ∧
      (calculate_fee_adjusted_profit t fr).1 =
        gross_profit t - (calculate_fee_adjusted_profit t fr).2) ∧
    gross_profit ⟨100, 110, 1, .LONG⟩ = 10 ∧
    calculate_fee_adjusted_profit ⟨100, 110, 1, .LONG⟩ (1/1000) =
      (979/100, 21/100) := by
  refine ⟨fun t fr => ⟨?_, ?_⟩, by norm_num [gross_profit], ?_⟩
  · simp [calculate_fee_adjusted_profit]; ring
  · simp [calculate_fee_adjusted_profit]
  · norm_num [calculate_fee_adjusted_profit, gross_profit]

/-- The fields of the position dict read by
`scripts/helpers/backtest_utils.check_stop_loss_take_profit`. -/
structure RiskPosition where
  entry_price : ℚ
  ttype : TradeType
deriving DecidableEq, Repr

/-- Embeds `scripts/helpers/backtest_utils.check_stop_loss_take_profit`:
returns the pair `(stop_loss_hit, take_profit_hit)`.
LONG: stop at `entry*(1-sl_pct)`, take at `entry*(1+tp_pct)`;
SHORT: stop at `entry*(1+sl_pct)`, take at `entry*(1-tp_pct)`. -/
def check_stop_loss_take_profit (position : RiskPosition) (current_price : ℚ)
    (stop_loss_pct : ℚ := 15/1000) (take_profit_pct : ℚ := 45/1000) :
    Bool × Bool :=
  let entry_price := position.entry_price
  match position.ttype with
  | .LONG =>
    let stop_loss := entry_price * (1 - stop_loss_pct)
    let take_profit := entry_price * (1 + take_profit_pct)
    (current_price ≤ stop_loss, take_profit ≤ current_price)
  | .SHORT =>
    let stop_loss := entry_price * (1 + stop_loss_pct)
    let take_profit := entry_price * (1 - take_profit_pct)
    (stop_loss ≤ current_price, current_price ≤ take_profit)

/-- Embeds `backTestBot.Backtester.check_stop_loss_take_profit` (long-only):
computes `pnl_pct = (current-entry)/entry` and closes on stop loss when
`pnl_pct <= -stop_loss_pct`, on take profit when `pnl_pct >= take_profit_pct`. -/
def backtester_check_stop_loss_take_profit (entry_price current_price : ℚ)
    (stop_loss_pct take_profit_pct : ℚ) : Bool × Option String :=
  let pnl_pct := (current_price - entry_price) / entry_price
  if pnl_pct ≤ -stop_loss_pct then (true, some "stop_loss")
  else if take_profit_pct ≤ pnl_pct then (true, some "take_profit")
  else (false, none)

/-- C3: stop-loss/take-profit triggers are exactly the inequalities of the spec.
The stop-loss flag of a LONG position is set iff `current <= entry*(1-sl_pct)` and
its take-profit flag iff `current >= entry*(1+tp_pct)`; a SHORT position uses
the mirrored thresholds. Additionally, for positive entry prices the
`Backtester` pnl-percentage formulation agrees with the LONG inequalities. -/
theorem stop_loss_take_profit_thresholds (entry price sl tp : ℚ) :
    (check_stop_loss_take_profit ⟨entry, .LONG⟩ price sl tp =
      (decide (price ≤ entry * (1 - sl)), decide (entry * (1 + tp) ≤ price))) ∧
    (check_stop_loss_take_profit ⟨entry, .SHORT⟩ price sl tp =
      (decide (entry * (1 + sl) ≤ price), decide (price ≤ entry * (1 - tp)))) ∧
    (0 < entry →
      ((backtester_check_stop_loss_take_profit entry price sl tp =
          (true, some "stop_loss")) ↔ price ≤ entry * (1 - sl)) ∧
      ((backtester_check_stop_loss_take_profit entry price sl tp =
          (true, some "take_profit")) ↔
        (entry * (1 + tp) ≤ price ∧ ¬ price ≤ entry * (1 - sl)))) := by
  refine ⟨rfl, rfl, fun hentry => ?_⟩
  have hsl : ((price - entry) / entry ≤ -sl) ↔ price ≤ entry * (1 - sl) := by
    rw [div_le_iff₀ hentry]
    constructor <;> intro h <;> nlinarith
  have htp : (tp ≤ (price - entry) / entry) ↔ entry * (1 + tp) ≤ price := by
    rw [le_div_iff₀ hentry]
    constructor <;> intro h <;> nlinarith
  constructor
  · unfold backtester_check_stop_loss_take_profit
    by_cases h : (price - entry) / entry ≤ -sl
    · simp [h, hsl.mp h]
    · have := hsl
      simp only [if_neg h]
      constructor
      · intro hcontra
        by_cases h2 : tp ≤ (price - entry) / entry <;> simp [h2] at hcontra
      · intro hle
        exact absurd (hsl.mpr hle) h
  · unfold backtester_check_stop_loss_take_profit
    by_cases h : (price - entry) / entry ≤ -sl
    · simp [h, hsl.mp h]
    · have hnle : ¬ price ≤ entry * (1 - sl) := fun hc => h (hsl.mpr hc)
      simp only [if_neg h]
      by_cases h2 : tp ≤ (price - entry) / entry
      · simp [h2, htp.mp h2, hnle]
      · simp [h2]
        intro hge
        exact absurd (htp.mpr hge) h2

/-- Closed witness for the positive-entry part of the threshold theorem:
entry 100, price 98, sl 0.02, tp 0.06 triggers the stop-loss branch. -/
theorem stop_loss_take_profit_thresholds_witness :
    (backtester_check_stop_loss_take_profit 100 98 (2/100) (6/100) =
        (true, some "stop_loss")) ↔ (98 : ℚ) ≤ 100 * (1 - 2/100) :=
  ((stop_loss_take_profit_thresholds 100 98 (2/100) (6/100)).2.2
    (by norm_num)).1

/-- The trade dict built by `scripts/helpers/trade_utils.execute_trade`:
an open position with `exit_price/exit_time/profit/exit_reason` still `None`
(the `fees` key is added later by the monitor bot, hence optional). -/
structure Position where
  symbol : String
  ttype : TradeType
  entry_price : ℚ
  entry_time : ℤ
  position_size : ℚ
  strategy : String
  timeframe : String
  stop_loss : ℚ
  take_profit : ℚ
  exit_price : Option ℚ
  exit_time : Option ℤ
  profit : Option ℚ
  exit_reason : Option String
  fees : Option ℚ
deriving DecidableEq, Repr

/-- Embeds `scripts/helpers/trade_utils.execute_trade`: builds the open-position
dict, deriving stop-loss and take-profit levels from the entry price. -/
def execute_trade (symbol : String) (trade_type : TradeType) (price : ℚ)
    (timestamp : ℤ) (strategy : String) (position_size : ℚ)
    (timeframe : String) (stop_loss_pct : ℚ := 2/100)
    (take_profit_pct : ℚ := 6/100) : Position where
  symbol := symbol
  ttype := trade_type
  entry_price := price
  entry_time := timestamp
  position_size := position_size
  strategy := strategy
  timeframe := timeframe
  stop_loss := if trade_type = .LONG then price * (1 - stop_loss_pct)
               else price * (1 + stop_loss_pct)
  take_profit := if trade_type = .LONG then price * (1 + take_profit_pct)
                 else price * (1 - take_profit_pct)
  exit_price := none
  exit_time := none
  profit := none
  exit_reason := none
  fees := none

/-- The per-position body of the loop in
`scripts/helpers/trade_utils.update_open_positions`: returns the mutated
(closed) position when the stop-loss or take-profit condition fires at
`current_price`, and `none` when the position stays open. Thresholds are
recomputed from `entry_price` exactly as in the source; the recorded
`profit` is the gross amount with no fees. -/
def try_close_position (position : Position) (current_price : ℚ)
    (timestamp : ℤ) (stop_loss_pct take_profit_pct : ℚ) : Option Position :=
  match position.ttype with
  | .LONG =>
    let stop_loss := position.entry_price * (1 - stop_loss_pct)
    let take_profit := position.entry_price * (1 + take_profit_pct)
    if current_price ≤ stop_loss then
      some { position with
        exit_price := some current_price
        exit_time := some timestamp
        profit := some ((current_price - position.entry_price) * position.position_size)
        exit_reason := some "stop_loss" }
    else if take_profit ≤ current_price then
      some { position with
        exit_price := some current_price
        exit_time := some timestamp
        profit := some ((current_price - position.entry_price) * position.position_size)
        exit_reason := some "take_profit" }
    else none
  | .SHORT =>
    let stop_loss := position.entry_price * (1 + stop_loss_pct)
    let take_profit := position.entry_price * (1 - take_profit_pct)
    if stop_loss ≤ current_price then
      some { position with
        exit_price := some current_price
        exit_time := some timestamp
        profit := some ((position.entry_price - current_price) * position.position_size)
        exit_reason := some "stop_loss" }
    else if current_price ≤ take_profit then
      some { position with
        exit_price := some current_price
        exit_time := some timestamp
        profit := some ((position.entry_price - current_price) * position.position_size)
        exit_reason := some "take_profit" }
    else none

/-- Embeds `scripts/helpers/trade_utils.update_open_positions`: walks the open list
in order, mutating and collecting every position whose stop-loss or
take-profit fires, then removes the collected ones from the open list.
Returns `(remaining open positions, closed positions)`, both in original
list order. -/
def update_open_positions (positions : List Position) (current_price : ℚ)
    (timestamp : ℤ) (stop_loss_pct : ℚ := 2/100)
    (take_profit_pct : ℚ := 6/100) : List Position × List Position :=
  match positions with
  | [] => ([], [])
  | p :: rest =>
    let (rem, closed) :=
      update_open_positions rest current_price timestamp stop_loss_pct take_profit_pct
    match try_close_position p current_price timestamp stop_loss_pct take_profit_pct with
    | some c => (rem, c :: closed)
    | none => (p :: rem, closed)

/-- Sample open LONG position P1: entry 100 at time 1 (built by
`execute_trade` with 2% stop loss, 6% take profit). -/
def sampleOpenP1 : Position :=
  execute_trade "BTCUSDT" .LONG 100 1 "RSIStrategy" 1 "1h" (2/100) (6/100)

/-- Sample open LONG position P2: entry 102 at time 2. -/
def sampleOpenP2 : Position :=
  execute_trade "BTCUSDT" .LONG 102 2 "RSIStrategy" 1 "1h" (2/100) (6/100)

/-- P1 as mutated by `update_open_positions` at price 90, time 5:
stop loss fires, gross profit -10 recorded, no fees. -/
def sampleClosedP1 : Position :=
  { sampleOpenP1 with
      exit_price := some 90
      exit_time := some 5
      profit := some (-10)
      exit_reason := some "stop_loss" }

/-- P2 as mutated by `update_open_positions` at price 90, time 5. -/
def sampleClosedP2 : Position :=
  { sampleOpenP2 with
      exit_price := some 90
      exit_time := some 5
      profit := some (-12)
      exit_reason := some "stop_loss" }

/-- C2 counterexample: one `update_open_positions` call over two LONG
positions (entries 100 and 102) at price 90 closes BOTH of them — the closed
list has length 2, refuting "closes at most one position per call / only the
oldest triggered position". -/
theorem update_open_positions_closes_two_at_once :
    (update_open_positions [sampleOpenP1, sampleOpenP2] 90 5 (2/100) (6/100)).2
      = [sampleClosedP1, sampleClosedP2] ∧
    ¬ (update_open_positions [sampleOpenP1, sampleOpenP2] 90 5
        (2/100) (6/100)).2.length ≤ 1 := by
  have h : (update_open_positions [sampleOpenP1, sampleOpenP2] 90 5
      (2/100) (6/100)).2 = [sampleClosedP1, sampleClosedP2] := by
    norm_num [update_open_positions, try_close_position, sampleOpenP1,
      sampleOpenP2, sampleClosedP1, sampleClosedP2, execute_trade]
  exact ⟨h, by rw [h]; norm_num⟩

/-- C2 amended: each `update_open_positions` call closes EVERY open position
whose stop-loss/take-profit condition holds at the current price (not just
the oldest), and both the remaining-open and the closed lists preserve the
original FIFO order; in particular over [P1, P2] with both stops triggered
the closed list holds the mutated P1 before the mutated P2. -/
theorem update_open_positions_closes_every_triggered :
    (∀ (l : List Position) (price : ℚ) (ts : ℤ) (sl tp : ℚ),
      (update_open_positions l price ts sl tp).2 =
        l.filterMap (fun p => try_close_position p price ts sl tp) ∧
      (update_open_positions l price ts sl tp).1 =
        l.filter (fun p => (try_close_position p price ts sl tp).isNone)) ∧
    update_open_positions [sampleOpenP1, sampleOpenP2] 90 5 (2/100) (6/100) =
      ([], [sampleClosedP1, sampleClosedP2]) := by
  constructor
  · intro l price ts sl tp
    induction l with
    | nil => simp [update_open_positions]
    | cons p rest ih =>
      rw [update_open_positions]
      cases h : try_close_position p price ts sl tp with
      | some c => simp [h, ih.1, ih.2]
      | none => simp [h, ih.1, ih.2, Option.isNone]
  · norm_num [update_open_positions, try_close_position, sampleOpenP1,
      sampleOpenP2, sampleClosedP1, sampleClosedP2, execute_trade]

/-- Field-level description of a successful `try_close_position`: identity
fields are preserved, exit fields are set, and the recorded profit is the
gross per-side amount with no fee term. -/
theorem try_close_position_spec (p c : Position) (price : ℚ) (ts : ℤ)
    (sl tp : ℚ) (h : try_close_position p price ts sl tp = some c) :
    c.entry_price = p.entry_price ∧ c.ttype = p.ttype ∧
    c.position_size = p.position_size ∧ c.fees = p.fees ∧
    c.exit_price = some price ∧ c.exit_time = some ts ∧
    c.profit = some (gross_profit
      ⟨c.entry_price, price, c.position_size, c.ttype⟩) := by
  unfold try_close_position at h
  cases htt : p.ttype with
  | LONG =>
    rw [htt] at h
    dsimp only at h
    split_ifs at h <;>
      (cases h; simp [gross_profit, htt])
  | SHORT =>
    rw [htt] at h
    dsimp only at h
    split_ifs at h <;>
      (cases h; simp [gross_profit, htt])

/-- The per-closed-trade step of
`scripts/bots/monitorBot.MonitorBot._update_live_positions`: the caller of
`update_open_positions` recomputes the profit of the trade with fees via
`calculate_fee_adjusted_profit` and stores both net profit and fees. -/
def monitor_process_closed_trade (closed_trade : Position) : Position :=
  let r := calculate_fee_adjusted_profit
    ⟨closed_trade.entry_price, closed_trade.exit_price.getD 0,
     closed_trade.position_size, closed_trade.ttype⟩
  { closed_trade with
      profit := some r.1
      fees := some r.2 }

/-- C9: every position closed by `update_open_positions` carries the GROSS
profit `(price-entry)*size` (LONG) / `(entry-price)*size` (SHORT) with no
fee deducted; the fee-adjusted net profit appears only after the monitor-bot
caller reprocesses the closed trade, which overwrites `profit` with
`gross - (entry*size + exit*size)*0.001` and sets `fees`. -/
theorem update_open_positions_gross_profit (l : List Position) (price : ℚ)
    (ts : ℤ) (sl tp : ℚ) :
    ∀ c ∈ (update_open_positions l price ts sl tp).2,
      c.exit_price = some price ∧
      c.profit = some (gross_profit
        ⟨c.entry_price, price, c.position_size, c.ttype⟩) ∧
      (monitor_process_closed_trade c).profit =
        some (gross_profit ⟨c.entry_price, price, c.position_size, c.ttype⟩ -
          (c.entry_price * c.position_size + price * c.position_size) *
            (1/1000)) ∧
      (monitor_process_closed_trade c).fees =
        some ((c.entry_price * c.position_size + price * c.position_size) *
          (1/1000)) := by
  intro c hc
  have hclosed : ∃ p ∈ l, try_close_position p price ts sl tp = some c := by
    induction l with
    | nil => simp [update_open_positions] at hc
    | cons p rest ih =>
      rw [update_open_positions] at hc
      cases h : try_close_position p price ts sl tp with
      | some c0 =>
        rw [h] at hc
        simp only [List.mem_cons] at hc
        rcases hc with rfl | hc
        · exact ⟨p, List.mem_cons_self .., h⟩
        · obtain ⟨q, hq, hqc⟩ := ih hc
          exact ⟨q, List.mem_cons_of_mem _ hq, hqc⟩
      | none =>
        rw [h] at hc
        obtain ⟨q, hq, hqc⟩ := ih hc
        exact ⟨q, List.mem_cons_of_mem _ hq, hqc⟩
  obtain ⟨p, _, hp⟩ := hclosed
  obtain ⟨-, -, -, -, hexit, -, hprofit⟩ :=
    try_close_position_spec p c price ts sl tp hp
  refine ⟨hexit, hprofit, ?_, ?_⟩ <;>
    simp [monitor_process_closed_trade, calculate_fee_adjusted_profit,
      hexit] <;> ring

/-- Closed witness: the sample P1 closed at price 90 records gross profit
-10, and the monitor-bot step turns it into net -10.19 with fees 0.19. -/
theorem update_open_positions_gross_profit_witness :
    sampleClosedP1.exit_price = some 90 ∧
    sampleClosedP1.profit = some (gross_profit
      ⟨sampleClosedP1.entry_price, 90, sampleClosedP1.position_size,
       sampleClosedP1.ttype⟩) ∧
    (monitor_process_closed_trade sampleClosedP1).profit =
      some (gross_profit ⟨sampleClosedP1.entry_price, 90,
          sampleClosedP1.position_size, sampleClosedP1.ttype⟩ -
        (sampleClosedP1.entry_price * sampleClosedP1.position_size +
          90 * sampleClosedP1.position_size) * (1/1000)) ∧
    (monitor_process_closed_trade sampleClosedP1).fees =
      some ((sampleClosedP1.entry_price * sampleClosedP1.position_size +
        90 * sampleClosedP1.position_size) * (1/1000)) :=
  update_open_positions_gross_profit [sampleOpenP1] 90 5 (2/100) (6/100)
    sampleClosedP1 (by
      norm_num [update_open_positions, try_close_position, sampleOpenP1,
        sampleClosedP1, execute_trade])

/-- The module-level constants of `config/automation_config.py` that
`BotCore.check_streak_conditions` reads. -/
structure AutomationConfig where
  emergency_override : Bool
  streak_automation_enabled : Bool
  required_positive_days : ℕ
  min_profit_threshold : ℚ
  automation_check_interval : ℤ
deriving DecidableEq, Repr

/-- The values set in `config/automation_config.py` (note
`EMERGENCY_OVERRIDE = True`). -/
def defaultAutomationConfig : AutomationConfig where
  emergency_override := true
  streak_automation_enabled := true
  required_positive_days := 5
  min_profit_threshold := 0
  automation_check_interval := 24 * 60 * 60

/-- The `automation_state` dict of `utils/bot_core.BotCore`; a streak-history
entry keeps the streak count and the fetched daily profits. -/
structure AutomationState where
  trading_enabled : Bool
  last_check_time : ℤ
  current_streak : ℕ
  streak_history : List (ℕ × List ℚ)
deriving DecidableEq, Repr

/-- Embeds `utils/bot_core.BotCore.calculate_daily_profit`: sums the `profit`
fields (default 0.0) of the trades the persistence query returns for the
date; if the query raises, the exception is caught and 0.0 returned. -/
def calculate_daily_profit (query_result : Except String (List (Option ℚ))) :
    ℚ :=
  match query_result with
  | .ok trades => (trades.map (fun t => t.getD 0)).sum
  | .error _ => 0

/-- Counts positive days as in `BotCore.check_streak_conditions`:
`sum(1 for profit in daily_profits if profit > MIN_PROFIT_THRESHOLD)`. -/
def positive_days_count (threshold : ℚ) (daily_profits : List ℚ) : ℕ :=
  daily_profits.countP (fun pr => decide (threshold < pr))

/-- Embeds `utils/bot_core.BotCore.check_streak_conditions`; `daily_profit i` is
the realized profit `calculate_daily_profit` yields for the date `i` days
before today. Returns the boolean result of the function, the updated
`automation_state`, and the list of daily profits actually fetched from
persistence during the call (empty when no query was performed). -/
def check_streak_conditions (cfg : AutomationConfig) (st : AutomationState)
    (current_time : ℤ) (daily_profit : ℕ → ℚ) :
    Bool × AutomationState × List ℚ :=
  if cfg.emergency_override then
    (true, { st with trading_enabled := true }, [])
  else if ¬ cfg.streak_automation_enabled then
    (true, st, [])
  else if current_time - st.last_check_time < cfg.automation_check_interval then
    (st.trading_enabled, st, [])
  else
    let daily_profits :=
      (List.range cfg.required_positive_days).map (fun i => daily_profit (i + 1))
    let positive_days := positive_days_count cfg.min_profit_threshold daily_profits
    let hist := st.streak_history ++ [(positive_days, daily_profits)]
    let hist2 := if 30 < hist.length then hist.drop (hist.length - 30) else hist
    let should_enable := decide (cfg.required_positive_days ≤ positive_days)
    (should_enable,
     { trading_enabled := should_enable
       last_check_time := current_time
       current_streak := positive_days
       streak_history := hist2 },
     daily_profits)

/-- Streak configuration matching the example of the claim: override off,
5 required positive days, threshold 0, 24h interval. -/
def sampleStreakCfg : AutomationConfig where
  emergency_override := false
  streak_automation_enabled := true
  required_positive_days := 5
  min_profit_threshold := 0
  automation_check_interval := 24 * 60 * 60

/-- An automation state whose last check is long past due. -/
def sampleStreakState : AutomationState where
  trading_enabled := true
  last_check_time := 0
  current_streak := 0
  streak_history := []

/-- Daily profits `[10, 20, -5, 15, 30]` indexed by days-before-today. -/
def sampleDailyProfits (days_ago : ℕ) : ℚ :=
  [10, 20, -5, 15, 30].getD (days_ago - 1) 0

/-- C4: in a due periodic evaluation with the emergency override off,
the fetched profits are the last `required_positive_days` daily profits,
the gate result is Enabled iff the count of days with profit strictly above
`min_profit_threshold` reaches `required_positive_days`, and the stored
state mirrors that result. -/
theorem check_streak_conditions_gate (cfg : AutomationConfig)
    (st : AutomationState) (t : ℤ) (f : ℕ → ℚ)
    (hov : cfg.emergency_override = false)
    (hen : cfg.streak_automation_enabled = true)
    (hdue : cfg.automation_check_interval ≤ t - st.last_check_time) :
    (check_streak_conditions cfg st t f).2.2 =
      (List.range cfg.required_positive_days).map (fun i => f (i + 1)) ∧
    (check_streak_conditions cfg st t f).1 =
      decide (cfg.required_positive_days ≤
        positive_days_count cfg.min_profit_threshold
          ((List.range cfg.required_positive_days).map (fun i => f (i + 1)))) ∧
    (check_streak_conditions cfg st t f).2.1.trading_enabled =
      (check_streak_conditions cfg st t f).1 ∧
    (check_streak_conditions cfg st t f).2.1.current_streak =
      positive_days_count cfg.min_profit_threshold
        ((List.range cfg.required_positive_days).map (fun i => f (i + 1))) := by
  have hnotdue : ¬ t - st.last_check_time < cfg.automation_check_interval :=
    not_lt.mpr hdue
  simp [check_streak_conditions, hov, hen, hnotdue]

/-- Closed witness instantiating the streak-gate theorem at the example
of the claim: daily profits [10, 20, -5, 15, 30], 5 required days, threshold 0
give 4 positive days, so the gate is Disabled. -/
theorem check_streak_conditions_gate_witness :
    (check_streak_conditions sampleStreakCfg sampleStreakState 86400
        sampleDailyProfits).1 = false ∧
    (check_streak_conditions sampleStreakCfg sampleStreakState 86400
        sampleDailyProfits).2.1.trading_enabled = false ∧
    (check_streak_conditions sampleStreakCfg sampleStreakState 86400
        sampleDailyProfits).2.1.current_streak = 4 := by
  obtain ⟨h1, h2, h3, h4⟩ := check_streak_conditions_gate sampleStreakCfg
    sampleStreakState 86400 sampleDailyProfits rfl rfl
    (by norm_num [sampleStreakCfg, sampleStreakState])
  have hcount : positive_days_count sampleStreakCfg.min_profit_threshold
      ((List.range sampleStreakCfg.required_positive_days).map
        (fun i => sampleDailyProfits (i + 1))) = 4 := by
    norm_num [positive_days_count, sampleStreakCfg, sampleDailyProfits,
      List.range_succ, List.countP_cons]
  have hgate : (check_streak_conditions sampleStreakCfg sampleStreakState
      86400 sampleDailyProfits).1 = false := by
    rw [h2, hcount]
    norm_num [sampleStreakCfg]
  refine ⟨hgate, by rw [h3, hgate], by rw [h4, hcount]⟩

/-- C8: whenever `EMERGENCY_OVERRIDE` is true, `check_streak_conditions`
returns Enabled and forces `trading_enabled := true`, the rest of the state
is untouched, no daily-profit query is performed (the fetched list is
empty), and the outcome is independent of the trade-history oracle. -/
theorem emergency_override_forces_enabled (cfg : AutomationConfig)
    (st : AutomationState) (t : ℤ) (f g : ℕ → ℚ)
    (hov : cfg.emergency_override = true) :
    (check_streak_conditions cfg st t f).1 = true ∧
    (check_streak_conditions cfg st t f).2.1 =
      { st with trading_enabled := true } ∧
    (check_streak_conditions cfg st t f).2.2 = [] ∧
    check_streak_conditions cfg st t f = check_streak_conditions cfg st t g := by
  simp [check_streak_conditions, hov]

/-- Closed witness: with the configuration the repository ships
(`EMERGENCY_OVERRIDE = True`) the gate is Enabled and performs no query,
whatever the daily profits were. -/
theorem emergency_override_forces_enabled_witness :
    (check_streak_conditions defaultAutomationConfig sampleStreakState 86400
        sampleDailyProfits).1 = true ∧
    (check_streak_conditions defaultAutomationConfig sampleStreakState 86400
        sampleDailyProfits).2.1 =
      { sampleStreakState with trading_enabled := true } ∧
    (check_streak_conditions defaultAutomationConfig sampleStreakState 86400
        sampleDailyProfits).2.2 = [] ∧
    check_streak_conditions defaultAutomationConfig sampleStreakState 86400
        sampleDailyProfits =
      check_streak_conditions defaultAutomationConfig sampleStreakState 86400
        (fun d => -(d : ℚ)) :=
  emergency_override_forces_enabled defaultAutomationConfig sampleStreakState
    86400 sampleDailyProfits (fun d => -(d : ℚ)) rfl

/-- C10: a daily-profit query that raises is absorbed — the profit of that day is
reported as 0.0 — and with any non-negative `min_profit_threshold` such a
day never increases the positive-day count feeding the streak gate. -/
theorem daily_profit_query_failure (msg : String) (threshold : ℚ)
    (ht : 0 ≤ threshold) (pre post : List ℚ) :
    calculate_daily_profit (Except.error msg) = 0 ∧
    positive_days_count threshold
        (pre ++ calculate_daily_profit (Except.error msg) :: post) =
      positive_days_count threshold (pre ++ post) := by
  have hz : calculate_daily_profit (Except.error msg) = 0 := rfl
  refine ⟨hz, ?_⟩
  rw [hz]
  simp [positive_days_count, List.countP_append, List.countP_cons,
    not_lt.mpr ht]

/-- Closed witness: with threshold 0 an error day (profit 0.0) between the
profitable days [10, 20] and [15, 30] leaves the positive-day count at 4. -/
theorem daily_profit_query_failure_witness :
    calculate_daily_profit (Except.error "connection error") = 0 ∧
    positive_days_count 0
        ([10, 20] ++ calculate_daily_profit
          (Except.error "connection error") :: [15, 30]) =
      positive_days_count 0 ([10, 20] ++ [15, 30]) :=
  daily_profit_query_failure "connection error" 0 le_rfl [10, 20] [15, 30]

/-- Helper for the Python substring test on the character list of a
string: true when `needle` occurs contiguously in the second list. -/
def containsSub (needle : List Char) : List Char → Bool
  | [] => needle.isEmpty
  | c :: rest => needle.isPrefixOf (c :: rest) || containsSub needle rest

/-- Embeds the Python substring operator `needle in haystack` on strings. -/
def str_contains (haystack needle : String) : Bool :=
  containsSub needle.toList haystack.toList

/-- Embeds `scripts/helpers/backtest_utils.calculate_position_size`:
`balance * max_position_size / price`; the `symbol` argument is unused, and
there is no minimum-quantity floor and no input validation. -/
def calculate_position_size (price : ℚ) (symbol : String) (balance : ℚ)
    (max_position_size : ℚ := 5/100) : ℚ :=
  let position_value := balance * max_position_size
  position_value / price

/-- Embeds `trading/execution.TradeExecutor.calculate_position_size`:
`raw = (balance * risk_percent/100) / (price * stop_loss_percent/100)`,
then a per-symbol minimum-quantity floor (0.1 for SOL pairs, 0.01 for ETH
pairs, 0.001 for BTC pairs) applied by substring lookup. The function is
total: it never raises a sizing error. -/
def executor_calculate_position_size (symbol : String)
    (usdt_balance price : ℚ) (risk_percent : ℚ := 1)
    (stop_loss_percent : ℚ := 2) : ℚ :=
  let risk_amount := usdt_balance * (risk_percent / 100)
  let stop_loss_amount := price * (stop_loss_percent / 100)
  let raw_quantity := risk_amount / stop_loss_amount
  if str_contains symbol "SOL" then max raw_quantity (1/10)
  else if str_contains symbol "ETH" then max raw_quantity (1/100)
  else if str_contains symbol "BTC" then max raw_quantity (1/1000)
  else raw_quantity

/-- C5 counterexample: at price 100 > 0 and balance 0 neither sizer fails —
there is no `InvalidSizingInput` path at all (both functions are total) —
and for a symbol without a floor entry both return the non-positive
quantity 0, refuting "never returns a non-positive quantity ... fails with
InvalidSizingInput otherwise". -/
theorem position_sizer_zero_not_error :
    executor_calculate_position_size "ADAUSDT" 0 100 1 2 = 0 ∧
    calculate_position_size 100 "ADAUSDT" 0 (5/100) = 0 := by
  have h1 : str_contains "ADAUSDT" "SOL" = false := by decide
  have h2 : str_contains "ADAUSDT" "ETH" = false := by decide
  have h3 : str_contains "ADAUSDT" "BTC" = false := by decide
  refine ⟨?_, ?_⟩
  · simp [executor_calculate_position_size, h1, h2, h3]
  · simp [calculate_position_size]

/-- C5 amended: for positive price, balance and risk parameters the executor
sizer returns a strictly positive quantity equal to
`(balance * (risk_percent/stop_loss_percent)) / price` raised to the
per-symbol floor (SOL 0.1, ETH 0.01, BTC 0.001, looked up by substring);
for non-positive price or balance it does not fail — it just returns the
same total formula, which can be 0 or negative for non-floored symbols. -/
theorem executor_position_size_formula (symbol : String) (b p r s : ℚ)
    (hb : 0 < b) (hp : 0 < p) (hr : 0 < r) (hs : 0 < s) :
    0 < executor_calculate_position_size symbol b p r s ∧
    executor_calculate_position_size symbol b p r s =
      (if str_contains symbol "SOL" then max ((b * (r / s)) / p) (1/10)
       else if str_contains symbol "ETH" then max ((b * (r / s)) / p) (1/100)
       else if str_contains symbol "BTC" then max ((b * (r / s)) / p) (1/1000)
       else (b * (r / s)) / p) := by
  have hform : (b * (r / 100)) / (p * (s / 100)) = (b * (r / s)) / p := by
    field_simp
    ring
  have hraw : 0 < (b * (r / 100)) / (p * (s / 100)) := by positivity
  unfold executor_calculate_position_size
  refine ⟨?_, ?_⟩ <;> split_ifs <;>
    simp [hform] at hraw ⊢ <;>
    first
      | exact Or.inl hraw
      | exact hraw
      | rfl

/-- Closed witness: SOLUSDT with balance 1000, price 100, risk 1%, stop 2%
gives the positive quantity max(5, 0.1) = 5. -/
theorem executor_position_size_formula_witness :
    0 < executor_calculate_position_size "SOLUSDT" 1000 100 1 2 ∧
    executor_calculate_position_size "SOLUSDT" 1000 100 1 2 =
      (if str_contains "SOLUSDT" "SOL" then max ((1000 * ((1:ℚ) / 2)) / 100) (1/10)
       else if str_contains "SOLUSDT" "ETH" then max ((1000 * ((1:ℚ) / 2)) / 100) (1/100)
       else if str_contains "SOLUSDT" "BTC" then max ((1000 * ((1:ℚ) / 2)) / 100) (1/1000)
       else (1000 * ((1:ℚ) / 2)) / 100) :=
  executor_position_size_formula "SOLUSDT" 1000 100 1 2 (by norm_num)
    (by norm_num) (by norm_num) (by norm_num)

/-- The balance/drawdown slice of the `backTestBot.Backtester` state. -/
structure BacktesterState where
  current_balance : ℚ
  peak_balance : ℚ
  max_drawdown : ℚ
  max_drawdown_limit : ℚ
deriving DecidableEq, Repr

/-- Embeds `backTestBot.Backtester.update_drawdown`: raises the peak if the current
balance exceeds it, records the worst drawdown seen, and returns whether the
current drawdown is within `max_drawdown_limit`. -/
def update_drawdown (s : BacktesterState) : BacktesterState × Bool :=
  let peak := if s.peak_balance < s.current_balance then s.current_balance
              else s.peak_balance
  let current_drawdown := (peak - s.current_balance) / peak
  ({ s with
      peak_balance := peak
      max_drawdown := max s.max_drawdown current_drawdown },
   decide (current_drawdown ≤ s.max_drawdown_limit))

/-- Embeds `scripts/backTestBot.Backtester._process_signal`: sizes the trade with
`calculate_position_size(close, symbol, balance, 0.05)`, builds it with
`execute_trade` (2% stop, 6% take profit) and unconditionally appends it to
`open_positions`. It consults neither the drawdown state nor any
`trading_enabled` flag. -/
def process_signal (open_positions : List Position)
    (symbol strategy_name timeframe : String) (close : ℚ) (idx : ℤ)
    (signal_position : ℚ) (balance : ℚ) : List Position :=
  let position_size := calculate_position_size close symbol balance (5/100)
  let trade := execute_trade symbol
    (if 0 < signal_position then .LONG else .SHORT) close idx strategy_name
    position_size timeframe (2/100) (6/100)
  open_positions ++ [trade]

/-- C6 (code bug): with peak balance 10000 and current balance 7500 the
drawdown is 0.25 and `update_drawdown` reports the 0.2 limit as breached
(`within_limit = false`), yet `_process_signal` still opens a position on
the next entry signal — for every state and signal it appends exactly one
new position, because no code path consults the drawdown flag before
opening. Existing positions are still evaluated for closure (the other
half of the claim): `update_open_positions` closes the sample position at its
stop regardless of any drawdown. -/
theorem drawdown_breach_does_not_block_entries :
    update_drawdown ⟨7500, 10000, 0, 1/5⟩ = (⟨7500, 10000, 1/4, 1/5⟩, false) ∧
    (∀ (l : List Position) (sym strat tf : String) (close : ℚ) (idx : ℤ)
      (sig bal : ℚ),
      (process_signal l sym strat tf close idx sig bal).length =
        l.length + 1) ∧
    (process_signal [] "BTCUSDT" "RSIStrategy" "1h" 100 10 1 7500).length
      = 1 ∧
    (update_open_positions [sampleOpenP1] 90 5 (2/100) (6/100)).2.length
      = 1 := by
  refine ⟨?_, fun l sym strat tf close idx sig bal => by
      simp [process_signal], by simp [process_signal], ?_⟩
  · norm_num [update_drawdown]
  · norm_num [update_open_positions, try_close_position, sampleOpenP1,
      execute_trade]

/-- The per-key open-position dict entry of
`scripts/helpers/smart_backtest.run_smart_execution`. -/
structure SmartPosition where
  symbol : String
  ttype : TradeType
  entry_price : ℚ
  entry_time : ℤ
  position_size : ℚ
  stop_loss : ℚ
  take_profit : ℚ
  strategy : String
  timeframe : String
deriving DecidableEq, Repr

/-- The new-entry step of
`scripts/helpers/smart_backtest.run_smart_execution`:
size at 5% when the signal at row i is nonzero and fewer than 3 are open,
of balance, set 2%/6% stops (mirrored for SHORT) and append; otherwise the
list is returned unchanged, with no error value of any kind. -/
def smart_entry_step (open_positions : List SmartPosition) (signal : ℚ)
    (symbol strategy_name timeframe : String) (balance current_price : ℚ)
    (current_time : ℤ) : List SmartPosition :=
  if signal ≠ 0 ∧ open_positions.length < 3 then
    let position_size := balance * (5/100) / current_price
    let trade_type := if 0 < signal then TradeType.LONG else TradeType.SHORT
    let stop_loss := if trade_type = .LONG then current_price * (98/100)
                     else current_price * (102/100)
    let take_profit := if trade_type = .LONG then current_price * (106/100)
                       else current_price * (94/100)
    open_positions ++
      [{ symbol := symbol
         ttype := trade_type
         entry_price := current_price
         entry_time := current_time
         position_size := position_size
         stop_loss := stop_loss
         take_profit := take_profit
         strategy := strategy_name
         timeframe := timeframe }]
  else open_positions

/-- A sample open smart-backtest position, entry at time `n`. -/
def sampleSmartPos (n : ℤ) : SmartPosition :=
  ⟨"BTCUSDT", .LONG, 100, n, 1, 98, 106, "RSIStrategy", "1h"⟩

/-- C7 counterexample: with exactly 3 open positions — a count that does
NOT exceed the cap of 3 — and a live entry signal, the entry step returns
the list unchanged instead of appending the new Open position the claim
demands; no `CapacityExceeded` error value exists (the function is total
and returns only the list). -/
theorem smart_entry_at_cap_skips :
    smart_entry_step [sampleSmartPos 1, sampleSmartPos 2, sampleSmartPos 3]
        1 "BTCUSDT" "RSIStrategy" "1h" 1000 100 4 =
      [sampleSmartPos 1, sampleSmartPos 2, sampleSmartPos 3] := by
  simp [smart_entry_step]

/-- C7 amended: the entry attempt is silently skipped (list unchanged, no
error raised) whenever the key already has at least 3 open positions or the
signal is 0; when the signal is nonzero and fewer than 3 positions are open,
exactly one new Open position is appended at the tail. -/
theorem smart_entry_cap (l : List SmartPosition) (signal : ℚ)
    (sym strat tf : String) (bal price : ℚ) (t : ℤ) :
    (3 ≤ l.length ∨ signal = 0 →
      smart_entry_step l signal sym strat tf bal price t = l) ∧
    (signal ≠ 0 → l.length < 3 →
      (smart_entry_step l signal sym strat tf bal price t).length =
        l.length + 1 ∧
      (smart_entry_step l signal sym strat tf bal price t).take l.length
        = l) := by
  constructor
  · intro h
    rcases h with h | h
    · have : ¬ l.length < 3 := not_lt.mpr h
      simp [smart_entry_step, this]
    · simp [smart_entry_step, h]
  · intro hs hl
    simp [smart_entry_step, hs, hl, List.take_append]

/-- Closed witness: from an empty key with a LONG signal the entry step
appends exactly one position. -/
theorem smart_entry_cap_witness :
    (smart_entry_step ([] : List SmartPosition) 1 "BTCUSDT" "RSIStrategy"
        "1h" 1000 100 4).length = ([] : List SmartPosition).length + 1 ∧
    (smart_entry_step ([] : List SmartPosition) 1 "BTCUSDT" "RSIStrategy"
        "1h" 1000 100 4).take ([] : List SmartPosition).length = [] :=
  (smart_entry_cap [] 1 "BTCUSDT" "RSIStrategy" "1h" 1000 100 4).2
    (by norm_num) (by norm_num)
